import Mathlib

/-!
Verification development for the Herald fixed-point accelerator
(CORDIC rotation/vectoring engine, MAC unit, byte-serial wrapper).

The CORDIC golden models are embedded from `test/test_cordic.py`
(`sign_extend_24`, `to_unsigned_24`, `ANGLES`, `K_FACTOR`,
`cordic_rotation`, `cordic_vectoring`).  Machine integers are modelled as
`Int` with explicit reduction modulo 2^24; Python's `>>` on `int` is an
arithmetic (floor) shift, modelled by floor division.
-/

set_option maxRecDepth 100000

/-- Arithmetic right shift by `n` bits: Python's `>>` on unbounded
signed integers, i.e. floor division by `2^n`. -/
def ashr (v : Int) (n : Nat) : Int :=
  Int.fdiv v (2 ^ n)

/-- From `test_cordic.py`: `val & 0xFFFFFF`, then subtract `2^24` when
bit 23 is set; reduces a value to the signed 24-bit range. -/
def sign_extend_24 (v : Int) : Int :=
  if v % (2 ^ 24) < 2 ^ 23 then v % (2 ^ 24) else v % (2 ^ 24) - 2 ^ 24

/-- From `test_cordic.py`: signed value to its unsigned 24-bit pattern. -/
def to_unsigned_24 (v : Int) : Int :=
  v % (2 ^ 24)

/-- The 20-entry Q12.12 arctangent table from `test_cordic.py`. -/
def ANGLES : List Int :=
  [3217, 1901, 1006, 511, 256, 128, 64, 32,
   16, 8, 4, 2, 1, 1, 0, 0, 0, 0, 0, 0]

/-- `1/gain = 0.607` in Q12.12, the rotation-mode seed (`test_cordic.py`). -/
def K_FACTOR : Int := 2487

/-- The two CORDIC modes exercised by the golden models. -/
inductive CMode where
  | rotation
  | vectoring
  deriving DecidableEq

/-- The per-iteration sign test (`rotate_cw` in the golden models):
rotation tests `z < 0`, vectoring tests `y > 0`. -/
def cordic_test (m : CMode) (y z : Int) : Bool :=
  match m with
  | CMode.rotation => decide (z < 0)
  | CMode.vectoring => decide (y > 0)

/-- One iteration of the golden-model loop body (`test_cordic.py`,
identical in `cordic_rotation` and `cordic_vectoring`): when the test is
true, `x + (y >> i)`, `y - (x >> i)`, `z + ANGLES[i]`; otherwise
`x - (y >> i)`, `y + (x >> i)`, `z - ANGLES[i]`; each result
sign-extended to 24 bits. -/
def cordic_step (rotate_cw : Bool) (i : Nat) (x y z : Int) : Int × Int × Int :=
  let x_shifted := ashr x i
  let y_shifted := ashr y i
  let a := ANGLES.getD i 0
  if rotate_cw then
    (sign_extend_24 (x + y_shifted), sign_extend_24 (y - x_shifted),
     sign_extend_24 (z + a))
  else
    (sign_extend_24 (x - y_shifted), sign_extend_24 (y + x_shifted),
     sign_extend_24 (z - a))

/-- Run `n` iterations of the CORDIC recurrence starting at iteration
index `i` from state `(x, y, z)`. -/
def cordic_run (m : CMode) : Nat → Nat → Int × Int × Int → Int × Int × Int
  | _, 0, s => s
  | i, n + 1, (x, y, z) =>
      cordic_run m (i + 1) n (cordic_step (cordic_test m y z) i x y z)

/-- `cordic_rotation` from `test_cordic.py`: 20 iterations from
`(K_FACTOR, 0, angle)`, returning `(sin, cos) = (y_N, x_N)`. -/
def cordic_rotation (angle : Int) : Int × Int :=
  let s := cordic_run CMode.rotation 0 20 (K_FACTOR, 0, angle)
  (s.2.1, s.1)

/-- `cordic_vectoring` from `test_cordic.py`: 20 iterations from
`(x_in, y_in, 0)`, returning `z_N` (the accumulated angle). -/
def cordic_vectoring (x_in y_in : Int) : Int :=
  (cordic_run CMode.vectoring 0 20 (x_in, y_in, 0)).2.2

/-- The iteration direction actually used by the code, as a signed unit:
the golden models add `y >> i` to `x` when the sign test is true, which
corresponds to direction `-1` in the `x - d*(y >> i)` form. -/
def cordic_dir (t : Bool) : Int :=
  if t then -1 else 1

/-- The iteration direction in the spec's words: `+1` when the mode's
sign test is true, `-1` otherwise. -/
def claim_dir (t : Bool) : Int :=
  if t then 1 else -1

/-- One CORDIC iteration exactly as the spec's pseudocode words it:
`x - d*(y >> i)`, `y + d*(x >> i)`, `z - d*angleTable[i]` with
`d = claim_dir`, each result sign-extended to 24 bits.  Written from the
spec, to be compared against `cordic_step` from the source. -/
def cordic_step_specdir (t : Bool) (i : Nat) (x y z : Int) : Int × Int × Int :=
  (sign_extend_24 (x - claim_dir t * ashr y i),
   sign_extend_24 (y + claim_dir t * ashr x i),
   sign_extend_24 (z - claim_dir t * ANGLES.getD i 0))

/-- Modelled from the spec: the CORDIC normalize operation's RTL is not
in the source material.  Spec s4.1 gives `Normalize(x, y) ->
(x_in, y_in, magnitude)` where the operands pass through unchanged and
the magnitude is the gained vector length produced by running the
vectoring recurrence from `(x_in, y_in, 0)`; the source tests
(`test_cordic.py`, `test_wrapper.py`) pin that magnitude to ~33728 for
`(12288, 16384)`, which is the `x` register after the 20 iterations (the
vectoring mode drives `y` to zero and accumulates the gained length into
`x`). -/
def cordic_normalize (x_in y_in : Int) : Int × Int × Int :=
  let s := cordic_run CMode.vectoring 0 20 (x_in, y_in, 0)
  (x_in, y_in, s.1)

/-- The 72-bit normalize result packing observed in the tests:
`{magnitude, y, x}` from least- to most-significant 24-bit field, each
field as its unsigned 24-bit pattern. -/
def pack_normalize (x y mag : Int) : Int :=
  to_unsigned_24 mag + to_unsigned_24 y * 2 ^ 24 + to_unsigned_24 x * 2 ^ 48

/-- Modelled from the spec: the MAC unit's RTL is not in the source
material.  Spec s4.2: `Multiply(a, b)` computes the product at full
width, arithmetic-shifts it right by `F = 12`, and sign-extends to
`W = 24` bits. -/
def mac_multiply (a b : Int) : Int :=
  sign_extend_24 (ashr (a * b) 12)

/-- Modelled from the spec: `Mac(a, b)` adds `(a*b) >> F` to the
accumulator (result held at `W = 24` bits). -/
def mac_mac (acc a b : Int) : Int :=
  sign_extend_24 (acc + ashr (a * b) 12)

/-- Modelled from the spec: `Msu(a, b)` subtracts `(a*b) >> F` from the
accumulator (result held at `W = 24` bits). -/
def mac_msu (acc a b : Int) : Int :=
  sign_extend_24 (acc - ashr (a * b) 12)

/-- Modelled from the spec: `ClearAccumulator()` sets the accumulator to
0 regardless of its prior value. -/
def mac_clear (_acc : Int) : Int :=
  0

/-- The operations the wrapper can dispatch (spec s4.3 / s6). -/
inductive Operation where
  | cordicSinCos
  | cordicAtan2
  | cordicNormalize
  | macMultiply
  | macMac
  | macClear
  | macMsu
  deriving DecidableEq

/-- Modelled from the spec: the wrapper's command decoder RTL is not in
the source material.  The command codes and their operations are the
ones driven by `test_wrapper.py`: 0x10 sin/cos, 0x11 atan2,
0x13 normalize, 0x20 multiply, 0x21 mac, 0x22 clear, 0x23 msu; every
other byte is unrecognized. -/
def cmd_operation (c : Nat) : Option Operation :=
  match c with
  | 0x10 => some Operation.cordicSinCos
  | 0x11 => some Operation.cordicAtan2
  | 0x13 => some Operation.cordicNormalize
  | 0x20 => some Operation.macMultiply
  | 0x21 => some Operation.macMac
  | 0x22 => some Operation.macClear
  | 0x23 => some Operation.macMsu
  | _ => none

/-- The recognized command bytes, as listed in `test_wrapper.py`. -/
def COMMAND_CODES : List Nat :=
  [0x10, 0x11, 0x13, 0x20, 0x21, 0x22, 0x23]

/-- The wrapper's control states (spec s4.3). -/
inductive WState where
  | idle
  | awaitingOperands
  | dispatching
  | running
  | awaitingRead
  deriving DecidableEq

/-- Modelled from the spec: the wrapper's architectural state — its
control state, the latched operation, the MAC accumulator and both
units' latched result registers. -/
structure Wrapper where
  st : WState
  activeOp : Option Operation
  macAcc : Int
  macResult : Int
  cordicResult : Int
  deriving DecidableEq

/-- Modelled from the spec: the external busy flag (status-byte bit 7)
is asserted exactly while the wrapper is `running`. -/
def wrapper_busy (w : Wrapper) : Bool :=
  decide (w.st = WState.running)

/-- Modelled from the spec: a command-byte write in `idle` latches a
recognized code and moves to `awaitingOperands`; an unrecognized code is
rejected with no state change; writes outside `idle` are not accepted
(the wrapper does not expose that transition). -/
def write_command (w : Wrapper) (c : Nat) : Wrapper :=
  if w.st = WState.idle then
    match cmd_operation c with
    | some op => { w with st := WState.awaitingOperands, activeOp := some op }
    | none => w
  else w

/-! ## Theorems -/

/-- Every sign-extended value lies in the signed 24-bit range. -/
theorem sign_extend_24_range (v : Int) :
    -(2 ^ 23) ≤ sign_extend_24 v ∧ sign_extend_24 v < 2 ^ 23 := by
  have h0 : 0 ≤ v % 2 ^ 24 := Int.emod_nonneg v (by norm_num)
  have h1 : v % 2 ^ 24 < 2 ^ 24 := Int.emod_lt_of_pos v (by norm_num)
  constructor <;> unfold sign_extend_24 <;> split <;> omega

/-- C1 counterexample: at iteration 0 in rotation mode with state
`(x, y, z) = (0, 4096, -1)` the sign test `z < 0` is true, and the code
computes `x + (y >> 0) = 4096` while the claim's `direction = +1`
convention demands `x - (y >> 0) = -4096`: the claim's step disagrees
with the code's step at this input. -/
theorem C1_counterexample :
    cordic_step (cordic_test CMode.rotation 4096 (-1)) 0 0 4096 (-1) ≠
      cordic_step_specdir (cordic_test CMode.rotation 4096 (-1)) 0 0 4096 (-1) := by
  decide

/-- C1 (amended): for every CORDIC iteration `i < 20` in every mode, the
state update is `x - d*(y >> i)`, `y + d*(x >> i)`, `z - d*ANGLES[i]`,
each sign-extended to 24 bits, with direction `d = -1` when the mode's
sign test is true and `d = +1` otherwise. -/
theorem C1_iteration_update (m : CMode) (i : Nat) (_h : i < 20) (x y z : Int) :
    cordic_step (cordic_test m y z) i x y z =
      (sign_extend_24 (x - cordic_dir (cordic_test m y z) * ashr y i),
       sign_extend_24 (y + cordic_dir (cordic_test m y z) * ashr x i),
       sign_extend_24 (z - cordic_dir (cordic_test m y z) * ANGLES.getD i 0)) := by
  cases hb : cordic_test m y z <;>
    simp [cordic_step, cordic_dir, sub_neg_eq_add, sub_eq_add_neg]

/-- C1 witness: the amended update law at a concrete iteration and state. -/
theorem C1_iteration_update_wit :
    (0 : Nat) < 20 ∧
      cordic_step (cordic_test CMode.rotation 2 3) 0 1 2 3 =
        (sign_extend_24 (1 - cordic_dir (cordic_test CMode.rotation 2 3) * ashr 2 0),
         sign_extend_24 (2 + cordic_dir (cordic_test CMode.rotation 2 3) * ashr 1 0),
         sign_extend_24 (3 - cordic_dir (cordic_test CMode.rotation 2 3) * ANGLES.getD 0 0)) :=
  ⟨by decide, C1_iteration_update CMode.rotation 0 (by decide) 1 2 3⟩

/-- C2: `Normalize(3, 4)` in Q12.12 (`x_in = 12288`, `y_in = 16384`)
returns `x` and `y` bit-exactly unchanged together with a gained
magnitude within 300 of 33728, and unpacking the 72-bit
`{magnitude, y_in, x_in}` packing at bit offsets 0, 24 and 48 recovers
the three fields. -/
theorem C2_normalize_3_4 :
    (cordic_normalize 12288 16384).1 = 12288 ∧
    (cordic_normalize 12288 16384).2.1 = 16384 ∧
    ((cordic_normalize 12288 16384).2.2 - 33728).natAbs ≤ 300 ∧
    sign_extend_24
        (pack_normalize 12288 16384 (cordic_normalize 12288 16384).2.2 % 2 ^ 24) =
      (cordic_normalize 12288 16384).2.2 ∧
    sign_extend_24
        (pack_normalize 12288 16384 (cordic_normalize 12288 16384).2.2 / 2 ^ 24 % 2 ^ 24) =
      16384 ∧
    sign_extend_24
        (pack_normalize 12288 16384 (cordic_normalize 12288 16384).2.2 / 2 ^ 48) =
      12288 := by
  decide

/-- C3 counterexample: `cordic_rotation 0 = (7, 4097)`, and
`|4097 - K_FACTOR| = |4097 - 2487| = 1610 > 160`, so `Rotation(0)` does
not return `cos = K` within the claimed tolerance. -/
theorem C3_counterexample :
    ¬ (((cordic_rotation 0).1).natAbs ≤ 160 ∧
       ((cordic_rotation 0).2 - K_FACTOR).natAbs ≤ 160) := by
  decide

/-- C3 (amended): `Rotation(0)` yields `sin = 0` and `cos = 1.0` in the
active Q-format (4096 in Q12.12, i.e. `K_FACTOR` times the CORDIC gain),
each within the +-160 Q12.12 tolerance. -/
theorem C3_rotation_zero :
    ((cordic_rotation 0).1).natAbs ≤ 160 ∧
    ((cordic_rotation 0).2 - 4096).natAbs ≤ 160 := by
  decide

/-- C4: for each verified angle `theta` in
`{0, pi/6, pi/4, pi/3, pi/2, 0.1 rad}` (Q12.12: 0, 2149, 3217, 4289,
6434, 410), running rotation to get `(sin, cos)` and then vectoring on
that vector recovers `theta` within +-160. -/
theorem C4_roundtrip :
    (cordic_vectoring (cordic_rotation 0).2 (cordic_rotation 0).1 - 0).natAbs ≤ 160 ∧
    (cordic_vectoring (cordic_rotation 2149).2 (cordic_rotation 2149).1 - 2149).natAbs ≤ 160 ∧
    (cordic_vectoring (cordic_rotation 3217).2 (cordic_rotation 3217).1 - 3217).natAbs ≤ 160 ∧
    (cordic_vectoring (cordic_rotation 4289).2 (cordic_rotation 4289).1 - 4289).natAbs ≤ 160 ∧
    (cordic_vectoring (cordic_rotation 6434).2 (cordic_rotation 6434).1 - 6434).natAbs ≤ 160 ∧
    (cordic_vectoring (cordic_rotation 410).2 (cordic_rotation 410).1 - 410).natAbs ≤ 160 := by
  decide

/-- C5 counterexample: for `(x_in, y_in) = (12288, 16384)` the `y`
register after the 20 vectoring iterations is 1 (vectoring drives `y`
toward zero), while the returned magnitude is 33728: the gained
magnitude is not `y_N`. -/
theorem C5_counterexample :
    (cordic_normalize 12288 16384).2.2 ≠
      (cordic_run CMode.vectoring 0 20 (12288, 16384, 0)).2.1 := by
  decide

/-- C5 (amended): for every input, the gained magnitude returned by
normalize is `x_N`, the `x` register after the 20th iteration of the
vectoring recurrence started from `(x_in, y_in, 0)`; for
`(12288, 16384)` that `x_N` is exactly the 33728 the verified behavior
returns. -/
theorem C5_magnitude_is_xN :
    (∀ x_in y_in : Int, (cordic_normalize x_in y_in).2.2 =
      (cordic_run CMode.vectoring 0 20 (x_in, y_in, 0)).1) ∧
    (cordic_run CMode.vectoring 0 20 (12288, 16384, 0)).1 = 33728 :=
  ⟨fun _ _ => rfl, by decide⟩

/-- C6: from a cleared accumulator, `Mac(2, 3)` leaves 6 (24576 in
Q12.12) and a subsequent `Mac(4, 5)` leaves 26 (106496); `Msu(3, 2)`
from an accumulator of 10 (40960) leaves 4 (16384); clearing twice is
clearing once, and clear sets the accumulator to 0 regardless of its
prior value; numeric results within the +-100 test tolerance. -/
theorem C6_mac_behavior :
    (∀ acc : Int, (mac_mac (mac_clear acc) 8192 12288 - 24576).natAbs ≤ 100) ∧
    (∀ acc : Int,
      (mac_mac (mac_mac (mac_clear acc) 8192 12288) 16384 20480 - 106496).natAbs ≤ 100) ∧
    (mac_msu 40960 12288 8192 - 16384).natAbs ≤ 100 ∧
    (∀ acc : Int, mac_clear (mac_clear acc) = mac_clear acc) ∧
    (∀ acc : Int, mac_clear acc = 0) := by
  refine ⟨fun acc => ?_, fun acc => ?_, by decide, fun _ => rfl, fun _ => rfl⟩
  · show (mac_mac 0 8192 12288 - 24576).natAbs ≤ 100
    decide
  · show (mac_mac (mac_mac 0 8192 12288) 16384 20480 - 106496).natAbs ≤ 100
    decide

/-- C7: `Multiply(0, x) = 0` for every `x`, and
`Multiply(a, b) = Multiply(b, a)` for all `a`, `b` (exact, hence within
any rounding tolerance). -/
theorem C7_multiply_props :
    (∀ x : Int, mac_multiply 0 x = 0) ∧
    (∀ a b : Int, mac_multiply a b = mac_multiply b a) := by
  constructor
  · intro x
    show sign_extend_24 (ashr (0 * x) 12) = 0
    rw [zero_mul]
    decide
  · intro a b
    unfold mac_multiply
    rw [Int.mul_comm]

/-- C8: writing any byte that is not a recognized command code while the
wrapper is idle leaves the wrapper state (control state, MAC
accumulator, both result registers) completely unchanged, with
`busy = 0`. -/
theorem C8_unrecognized_command (w : Wrapper) (c : Nat)
    (hidle : w.st = WState.idle) (hc : cmd_operation c = none) :
    write_command w c = w ∧ wrapper_busy (write_command w c) = false := by
  have h1 : write_command w c = w := by
    simp [write_command, hidle, hc]
  refine ⟨h1, ?_⟩
  rw [h1]
  unfold wrapper_busy
  rw [hidle]
  rfl

/-- C8 witness: writing the unrecognized byte 0xFF to an idle wrapper
changes nothing and leaves busy low. -/
theorem C8_unrecognized_command_wit :
    write_command ⟨WState.idle, none, 0, 0, 0⟩ 0xFF = ⟨WState.idle, none, 0, 0, 0⟩ ∧
    wrapper_busy (write_command ⟨WState.idle, none, 0, 0, 0⟩ 0xFF) = false :=
  C8_unrecognized_command ⟨WState.idle, none, 0, 0, 0⟩ 0xFF rfl rfl

/-- C9: in every mode, after every iteration's update the `x`, `y` and
`z` values lie within the signed 24-bit two's-complement range
`[-2^23, 2^23 - 1]`: sign-extension to 24 bits is applied to every
stored result. -/
theorem C9_state_in_range (m : CMode) (i : Nat) (x y z : Int) :
    (-(2 ^ 23) ≤ (cordic_step (cordic_test m y z) i x y z).1 ∧
      (cordic_step (cordic_test m y z) i x y z).1 < 2 ^ 23) ∧
    (-(2 ^ 23) ≤ (cordic_step (cordic_test m y z) i x y z).2.1 ∧
      (cordic_step (cordic_test m y z) i x y z).2.1 < 2 ^ 23) ∧
    (-(2 ^ 23) ≤ (cordic_step (cordic_test m y z) i x y z).2.2 ∧
      (cordic_step (cordic_test m y z) i x y z).2.2 < 2 ^ 23) := by
  cases ht : cordic_test m y z <;>
    simp only [cordic_step, if_true, if_false, Bool.false_eq_true] <;>
    exact ⟨sign_extend_24_range _, sign_extend_24_range _, sign_extend_24_range _⟩

/-- C10: the recognized command codes are exactly 0x10 (sin/cos),
0x11 (atan2), 0x13 (normalize), 0x20 (multiply), 0x21 (mac),
0x22 (clear) and 0x23 (msu) — every byte outside `COMMAND_CODES`
decodes to none — and each recognized code written as a single command
byte while the wrapper is idle is accepted: the wrapper latches the
corresponding operation and leaves idle. -/
theorem C10_command_codes :
    cmd_operation 0x10 = some Operation.cordicSinCos ∧
    cmd_operation 0x11 = some Operation.cordicAtan2 ∧
    cmd_operation 0x13 = some Operation.cordicNormalize ∧
    cmd_operation 0x20 = some Operation.macMultiply ∧
    cmd_operation 0x21 = some Operation.macMac ∧
    cmd_operation 0x22 = some Operation.macClear ∧
    cmd_operation 0x23 = some Operation.macMsu ∧
    (∀ c : Nat, c ∉ COMMAND_CODES → cmd_operation c = none) ∧
    (∀ (w : Wrapper) (c : Nat) (op : Operation), w.st = WState.idle →
      cmd_operation c = some op →
      (write_command w c).st = WState.awaitingOperands ∧
      (write_command w c).activeOp = some op) := by
  refine ⟨rfl, rfl, rfl, rfl, rfl, rfl, rfl, ?_, ?_⟩
  · intro c hc
    unfold cmd_operation
    split <;> simp_all [COMMAND_CODES]
  · intro w c op hidle hop
    simp [write_command, hidle, hop]

/-- C10 witness: byte 0xFE is rejected, and byte 0x13 written to an idle
wrapper latches the normalize operation. -/
theorem C10_command_codes_wit :
    cmd_operation 0xFE = none ∧
    ((write_command ⟨WState.idle, none, 0, 0, 0⟩ 0x13).st = WState.awaitingOperands ∧
      (write_command ⟨WState.idle, none, 0, 0, 0⟩ 0x13).activeOp =
        some Operation.cordicNormalize) :=
  ⟨C10_command_codes.2.2.2.2.2.2.2.1 0xFE (by decide),
   C10_command_codes.2.2.2.2.2.2.2.2 ⟨WState.idle, none, 0, 0, 0⟩ 0x13
     Operation.cordicNormalize rfl rfl⟩
